import Mathlib

/-!
Shallow embedding of the `litemdb` wrapper layer (`src/lib.rs`) over the LMDB
storage engine.  The engine itself is an external collaborator: every FFI call
the wrapper makes is resolved through an explicit oracle of integer status
codes, and the wrapper's control flow is translated branch by branch from the
Rust source.  Traces of engine effects are recorded so that resource-cleanup
and finalization-order properties can be stated.
-/

set_option autoImplicit false

namespace LiteMDB

/-- An engine status code (`i32` in the generated bindings); `0` is success. -/
abbrev Status := Int

/-- The engine's not-found sentinel, `MDB_NOTFOUND` in `lmdb.h`. -/
def MDB_NOTFOUND : Status := -30798

/-- The `MDB_RDONLY` flag bit (`transaction::Flags::READ_ONLY`). -/
def MDB_RDONLY : Nat := 0x20000

/-- `litemdb::Error` is `pub struct Error(i32)`: a single stored engine status
code and nothing else (in particular no stored message string). -/
structure Error where
  code : Status
  deriving DecidableEq

/-- The `Debug` impl for `Error`: at format time it calls the engine facility
`mdb_strerror` on the stored code and prints the resolved message.  The
resolver is a parameter standing for the engine's status-to-string table;
construction of an `Error` never touches it. -/
def Error.fmtDebug (strerror : Status → String) (e : Error) : String :=
  strerror e.code

/-- `litemdb::Environment`: the engine instance handle plus the handle of the
single implicit table (`dbi`) opened eagerly during construction. -/
structure Environment where
  env : Nat
  dbi : Nat
  deriving DecidableEq

/-- Engine responses for the six FFI calls `Environment::open` makes, listed
in program order, together with the handles the engine would hand back. -/
structure OpenOracle where
  createStatus : Status
  setMapsizeStatus : Status
  envOpenStatus : Status
  txnBeginStatus : Status
  dbiOpenStatus : Status
  commitStatus : Status
  envHandle : Nat
  dbiHandle : Nat
  deriving DecidableEq

/-- Engine effects issued by `Environment::open`, in the order the code makes
the calls. -/
inductive OpenEvent where
  | envCreate
  | envSetMapsize (mapSize : Nat)
  | envOpen (path : List Nat) (flags : Nat) (mode : Nat)
  | txnBegin (flags : Nat)
  | dbiOpen
  | txnCommit
  | envClose
  deriving DecidableEq

/-- Result of `Environment::open`: the `CString::new(path)` expect-panic on an
interior NUL byte, an `Err(Error(r))` return, or the constructed value. -/
inductive OpenOutcome where
  | panicked
  | err (e : Error)
  | ok (env : Environment)
  deriving DecidableEq

/-- `Environment::open`, translated branch by branch from `src/lib.rs`
(lines 113-164).  Each failure branch returns exactly the trace of engine
calls the code has issued up to and including that point.  Note that the
`mdb_env_set_mapsize` failure branch returns `Err` without an `envClose`
event: the source has no `mdb_env_close` call on that path, unlike the four
later failure paths. -/
def Environment.openEnv (o : OpenOracle) (path : List Nat) (flags : Nat)
    (mapSize : Nat) (mode : Nat) : List OpenEvent × OpenOutcome :=
  if o.createStatus ≠ 0 then
    ([.envCreate], .err ⟨o.createStatus⟩)
  else if o.setMapsizeStatus ≠ 0 then
    ([.envCreate, .envSetMapsize mapSize], .err ⟨o.setMapsizeStatus⟩)
  else if 0 ∈ path then
    ([.envCreate, .envSetMapsize mapSize], .panicked)
  else if o.envOpenStatus ≠ 0 then
    ([.envCreate, .envSetMapsize mapSize, .envOpen path flags mode, .envClose],
      .err ⟨o.envOpenStatus⟩)
  else if o.txnBeginStatus ≠ 0 then
    ([.envCreate, .envSetMapsize mapSize, .envOpen path flags mode,
        .txnBegin MDB_RDONLY, .envClose],
      .err ⟨o.txnBeginStatus⟩)
  else if o.dbiOpenStatus ≠ 0 then
    ([.envCreate, .envSetMapsize mapSize, .envOpen path flags mode,
        .txnBegin MDB_RDONLY, .dbiOpen, .envClose],
      .err ⟨o.dbiOpenStatus⟩)
  else if o.commitStatus ≠ 0 then
    ([.envCreate, .envSetMapsize mapSize, .envOpen path flags mode,
        .txnBegin MDB_RDONLY, .dbiOpen, .txnCommit, .envClose],
      .err ⟨o.commitStatus⟩)
  else
    ([.envCreate, .envSetMapsize mapSize, .envOpen path flags mode,
        .txnBegin MDB_RDONLY, .dbiOpen, .txnCommit],
      .ok ⟨o.envHandle, o.dbiHandle⟩)

/-- `litemdb::Transaction`: the owning environment (the `Arc<Environment>`
field), the engine transaction handle, and the `is_discarded` completion
flag. -/
structure Transaction where
  env : Environment
  txn : Nat
  is_discarded : Bool
  deriving DecidableEq

/-- Result of `Transaction::begin`: the `assert!` panic on the thread-local
cell, an `Err(Error(r))` return, or the constructed transaction. -/
inductive BeginOutcome where
  | panicked
  | err (e : Error)
  | ok (t : Transaction)
  deriving DecidableEq

/-- `Transaction::begin` (`src/lib.rs` lines 271-293).  `cell` is the calling
thread's `ACTIVE_TXN` thread-local.  The code runs `cell.replace(true)` and
asserts the old value was `false`; it then asks the engine to begin a
transaction.  The returned pair is the cell as the code leaves it, and the
outcome.  Note that the engine-error branch returns with the cell still set
to `true`: the source has no reset on that path. -/
def Transaction.begin (env : Environment) (cell : Bool) (beginStatus : Status)
    (txnHandle : Nat) : Bool × BeginOutcome :=
  if cell then
    (true, .panicked)
  else if beginStatus ≠ 0 then
    (true, .err ⟨beginStatus⟩)
  else
    (true, .ok ⟨env, txnHandle, false⟩)

/-- Engine-facing and thread-local effects of transaction finalization, in
the order they are issued. -/
inductive TxnEvent where
  | engineCommit
  | engineAbort
  | clearMarker
  deriving DecidableEq

/-- Whether an event is an engine finalization call (`mdb_txn_commit` or
`mdb_txn_abort`). -/
def TxnEvent.isFinalize : TxnEvent → Bool
  | .engineCommit => true
  | .engineAbort => true
  | .clearMarker => false

/-- Number of engine finalization calls in a trace. -/
def engineFinalizations (tr : List TxnEvent) : Nat :=
  tr.countP TxnEvent.isFinalize

/-- Number of thread-local marker clears in a trace. -/
def markerClears (tr : List TxnEvent) : Nat :=
  tr.countP fun e => decide (e = TxnEvent.clearMarker)

/-- `impl Drop for Transaction` (`src/lib.rs` lines 433-443): run
`cell.replace(false)` asserting the old value was `true`, then call
`mdb_txn_abort` unless `is_discarded`.  Returns the trace, the cell after the
replace, and whether the assertion held (the old cell value). -/
def Transaction.dropRun (cell : Bool) (t : Transaction) :
    List TxnEvent × Bool × Bool :=
  if t.is_discarded then
    ([.clearMarker], false, cell)
  else
    ([.clearMarker, .engineAbort], false, cell)

/-- `Transaction::abort` (`src/lib.rs` lines 401-405) including the implicit
drop of `self` at the end of the call: `mdb_txn_abort` is issued
unconditionally, `is_discarded` is set to `true`, and the drop glue then only
clears the thread marker.  The operation has no error path. -/
def Transaction.abortRun (cell : Bool) (t : Transaction) :
    List TxnEvent × Bool :=
  (TxnEvent.engineAbort :: (Transaction.dropRun cell ⟨t.env, t.txn, true⟩).1,
    (Transaction.dropRun cell ⟨t.env, t.txn, true⟩).2.1)

/-- `Transaction::commit` (`src/lib.rs` lines 416-424) including the implicit
drop of `self` at the end of the call: `mdb_txn_commit` is issued; on a
nonzero status the function returns `Err(Error(r))` before the line
`self.is_discarded = true;`, so the drop glue then sees `is_discarded ==
false` and issues `mdb_txn_abort` as well; on success `is_discarded` is set
first and the drop glue only clears the marker. -/
def Transaction.commitRun (cell : Bool) (t : Transaction)
    (commitStatus : Status) : List TxnEvent × Bool × Except Error Unit :=
  if commitStatus ≠ 0 then
    (TxnEvent.engineCommit :: (Transaction.dropRun cell ⟨t.env, t.txn, t.is_discarded⟩).1,
      (Transaction.dropRun cell ⟨t.env, t.txn, t.is_discarded⟩).2.1,
      Except.error ⟨commitStatus⟩)
  else
    (TxnEvent.engineCommit :: (Transaction.dropRun cell ⟨t.env, t.txn, true⟩).1,
      (Transaction.dropRun cell ⟨t.env, t.txn, true⟩).2.1,
      Except.ok ())

/-- `Transaction::drop` on a transaction that was neither committed nor
aborted (`is_discarded == false` as `begin` set it): the automatic-abort
path. -/
def Transaction.plainDropRun (cell : Bool) (t : Transaction) :
    List TxnEvent × Bool :=
  ((Transaction.dropRun cell t).1, (Transaction.dropRun cell t).2.1)

/-- The status-translation branch structure of `Transaction::get`
(`src/lib.rs` lines 303-330): `MDB_NOTFOUND` becomes `Ok(None)`, any other
nonzero status becomes `Err(Error(r))`, and success yields the bytes the
engine returned. -/
def getStatusResult (r : Status) (data : List Nat) :
    Except Error (Option (List Nat)) :=
  if r = MDB_NOTFOUND then Except.ok none
  else if r ≠ 0 then Except.error ⟨r⟩
  else Except.ok (some data)

/-- The status-translation branch structure of `Transaction::del`
(`src/lib.rs` lines 373-394): `MDB_NOTFOUND` becomes `Ok(false)`, any other
nonzero status becomes `Err(Error(r))`, and success yields `Ok(true)`. -/
def delStatusResult (r : Status) : Except Error Bool :=
  if r = MDB_NOTFOUND then Except.ok false
  else if r ≠ 0 then Except.error ⟨r⟩
  else Except.ok true

/-- Modelled from the spec: the storage engine's key-value table state as a
transaction observes it (snapshot plus own uncommitted writes, spec section
5); the engine itself is absent from `src/`.  Newest binding first. -/
abbrev KV := List (List Nat × List Nat)

/-- Modelled from the spec: lookup of the newest binding for a key. -/
def kvGet (db : KV) (k : List Nat) : Option (List Nat) :=
  match db with
  | [] => none
  | (k₀, v) :: rest => if k₀ = k then some v else kvGet rest k

/-- Modelled from the spec: `put` "inserts or overwrites the value for
`key`" (spec section 4.2); the new binding shadows any older one. -/
def kvPut (db : KV) (k v : List Nat) : KV :=
  (k, v) :: db

/-- Modelled from the spec: deletion removes every binding for the key. -/
def kvDel (db : KV) (k : List Nat) : KV :=
  db.filter fun p => decide (p.1 ≠ k)

/-- Modelled from the spec: `mdb_get` against the transaction's view of the
table — status `0` with the stored bytes when the key is present,
`MDB_NOTFOUND` otherwise (spec section 6). -/
def mdb_get (db : KV) (k : List Nat) : Status × List Nat :=
  match kvGet db k with
  | some v => (0, v)
  | none => (MDB_NOTFOUND, [])

/-- Modelled from the spec: `mdb_put` with default flags inserts or
overwrites and reports success (spec section 4.2). -/
def mdb_put (db : KV) (k v : List Nat) : Status × KV :=
  (0, kvPut db k v)

/-- Modelled from the spec: `mdb_del` reports `MDB_NOTFOUND` when the key is
absent and otherwise deletes it and reports success (spec section 4.2). -/
def mdb_del (db : KV) (k : List Nat) : Status × KV :=
  match kvGet db k with
  | some _ => (0, kvDel db k)
  | none => (MDB_NOTFOUND, db)

/-- The state a live transaction carries at this abstraction level: its view
of the table and its completion flag. -/
structure TxnState where
  db : KV
  is_discarded : Bool
  deriving DecidableEq

/-- `Transaction::get` over the modelled engine: the wrapper takes `&self`
(shared access), issues `mdb_get`, and translates the status; the state
component is returned untouched, as `mdb_get` is a read (spec section 5). -/
def Transaction.getS (st : TxnState) (k : List Nat) :
    TxnState × Except Error (Option (List Nat)) :=
  (st, getStatusResult (mdb_get st.db k).1 (mdb_get st.db k).2)

/-- `Transaction::put` over the modelled engine: issues `mdb_put` and
returns `Ok(())` on status `0`, `Err` otherwise. -/
def Transaction.putS (st : TxnState) (k v : List Nat) :
    TxnState × Except Error Unit :=
  if (mdb_put st.db k v).1 ≠ 0 then
    (st, Except.error ⟨(mdb_put st.db k v).1⟩)
  else
    (⟨(mdb_put st.db k v).2, st.is_discarded⟩, Except.ok ())

/-- `Transaction::del` over the modelled engine: issues `mdb_del` and
translates the status exactly as the source does. -/
def Transaction.delS (st : TxnState) (k : List Nat) :
    TxnState × Except Error Bool :=
  (⟨(mdb_del st.db k).2, st.is_discarded⟩, delStatusResult (mdb_del st.db k).1)

/-- C1: the claim fails on the code.  When `mdb_env_create` succeeds and
`mdb_env_set_mapsize` fails (status `-30792`, `MDB_MAP_FULL`), the
map-size failure branch of `Environment::open` returns an `Error` without
issuing `mdb_env_close`, so the created engine instance handle is left
open — unlike the four later failure branches, which all close it. -/
theorem c1_mapsize_failure_leaks_handle :
    (Environment.openEnv ⟨0, -30792, 0, 0, 0, 0, 1, 1⟩ [107] 0 16777216 438).2 =
      OpenOutcome.err ⟨-30792⟩ ∧
    OpenEvent.envClose ∉
      (Environment.openEnv ⟨0, -30792, 0, 0, 0, 0, 1, 1⟩ [107] 0 16777216 438).1 := by
  decide

/-- C2: the claim fails on the code.  When `mdb_txn_commit` returns a
nonzero status, `commit` returns the `Error` before the line
`self.is_discarded = true;`, so the implicit drop of the consumed
transaction sees `is_discarded == false` and issues `mdb_txn_abort` — a
second engine finalization for a transaction the engine already
terminated. -/
theorem c2_failed_commit_aborts_again :
    (Transaction.commitRun true ⟨⟨7, 3⟩, 11, false⟩ (-30792)).2.2 =
      Except.error ⟨-30792⟩ ∧
    (Transaction.commitRun true ⟨⟨7, 3⟩, 11, false⟩ (-30792)).1 =
      [TxnEvent.engineCommit, TxnEvent.clearMarker, TxnEvent.engineAbort] := by
  constructor <;> rfl

/-- C3: the claim fails on the code.  A `begin` whose engine call errors
leaves the thread-local `ACTIVE_TXN` cell set to `true` (the error branch
never resets it), so a later `begin` on the same thread panics even though
no `Transaction` exists on that thread. -/
theorem c3_failed_begin_poisons_thread :
    (Transaction.begin ⟨7, 3⟩ false (-30791) 11).2 = BeginOutcome.err ⟨-30791⟩ ∧
    (Transaction.begin ⟨7, 3⟩
        (Transaction.begin ⟨7, 3⟩ false (-30791) 11).1 0 11).2 =
      BeginOutcome.panicked := by
  decide

/-- C4: the claim fails on the code on one path.  The abort path, the
plain-drop path and the successful-commit path each issue exactly one
engine finalization, and every path clears the thread marker exactly once;
but the failed-commit path issues two engine finalizations
(`mdb_txn_commit` then `mdb_txn_abort` from the drop glue), so "finalized
exactly once" does not hold there. -/
theorem c4_commit_error_path_finalizes_twice :
    engineFinalizations
        (Transaction.commitRun true ⟨⟨7, 3⟩, 11, false⟩ (-30788)).1 = 2 ∧
    engineFinalizations (Transaction.abortRun true ⟨⟨7, 3⟩, 11, false⟩).1 = 1 ∧
    engineFinalizations
        (Transaction.plainDropRun true ⟨⟨7, 3⟩, 11, false⟩).1 = 1 ∧
    engineFinalizations (Transaction.commitRun true ⟨⟨7, 3⟩, 11, false⟩ 0).1 = 1 ∧
    markerClears (Transaction.commitRun true ⟨⟨7, 3⟩, 11, false⟩ (-30788)).1 = 1 ∧
    markerClears (Transaction.abortRun true ⟨⟨7, 3⟩, 11, false⟩).1 = 1 ∧
    markerClears (Transaction.plainDropRun true ⟨⟨7, 3⟩, 11, false⟩).1 = 1 ∧
    markerClears (Transaction.commitRun true ⟨⟨7, 3⟩, 11, false⟩ 0).1 = 1 := by
  decide

/-- C5: `get` returns `Ok(None)` exactly when the engine reports
`MDB_NOTFOUND`, `Ok(Some data)` on success and an `Error` carrying the
status on any other nonzero status; `del` likewise returns `Ok(false)`
exactly on `MDB_NOTFOUND`, `Ok(true)` on success and an `Error` otherwise —
the not-found status is never surfaced as an `Error` from either. -/
theorem c5_notfound_translation (r : Status) (data : List Nat) :
    (getStatusResult r data = Except.ok none ↔ r = MDB_NOTFOUND) ∧
    (delStatusResult r = Except.ok false ↔ r = MDB_NOTFOUND) ∧
    (r = 0 → getStatusResult r data = Except.ok (some data) ∧
      delStatusResult r = Except.ok true) ∧
    (r ≠ MDB_NOTFOUND → r ≠ 0 →
      getStatusResult r data = Except.error ⟨r⟩ ∧
      delStatusResult r = Except.error ⟨r⟩) := by
  unfold getStatusResult delStatusResult MDB_NOTFOUND
  refine ⟨?_, ?_, ?_, ?_⟩ <;> intros <;> split_ifs
  all_goals simp_all

/-- Witness for C5 at concrete statuses: the not-found sentinel, success,
and another nonzero status. -/
theorem c5_notfound_translation_witness :
    getStatusResult (-30798) [5] = Except.ok none ∧
    delStatusResult (-30798) = Except.ok false ∧
    getStatusResult 0 [5] = Except.ok (some [5]) ∧
    delStatusResult 0 = Except.ok true ∧
    getStatusResult (-30000) [5] = Except.error ⟨-30000⟩ ∧
    delStatusResult (-30000) = Except.error ⟨-30000⟩ :=
  ⟨(c5_notfound_translation (-30798) [5]).1.mpr (by decide),
   (c5_notfound_translation (-30798) [5]).2.1.mpr (by decide),
   ((c5_notfound_translation 0 [5]).2.2.1 (by decide)).1,
   ((c5_notfound_translation 0 [5]).2.2.1 (by decide)).2,
   ((c5_notfound_translation (-30000) [5]).2.2.2 (by decide) (by decide)).1,
   ((c5_notfound_translation (-30000) [5]).2.2.2 (by decide) (by decide)).2⟩

/-- C6: from any transaction state (in particular one where the key is
already bound), `put(key, data)` followed by `get(key)` in the same
transaction returns `Ok(Some data)`. -/
theorem c6_put_then_get_roundtrip (st : TxnState) (k v : List Nat) :
    (Transaction.getS (Transaction.putS st k v).1 k).2 = Except.ok (some v) := by
  simp [Transaction.getS, Transaction.putS, mdb_get, mdb_put, kvGet, kvPut,
    getStatusResult, MDB_NOTFOUND]

/-- C8: a successful `Environment::open` issues exactly the six engine
effects in the fixed program order — create, set map size, open against the
directory, begin a read-only bootstrap transaction, open the implicit
table, commit — which requires every step's status to be `0`, and the
returned `Environment` holds the engine handle and exactly the one implicit
table handle the engine returned. -/
theorem c8_open_effect_order (o : OpenOracle) (path : List Nat)
    (flags mapSize mode : Nat) (env : Environment)
    (h : (Environment.openEnv o path flags mapSize mode).2 = OpenOutcome.ok env) :
    (Environment.openEnv o path flags mapSize mode).1 =
      [OpenEvent.envCreate, OpenEvent.envSetMapsize mapSize,
        OpenEvent.envOpen path flags mode, OpenEvent.txnBegin MDB_RDONLY,
        OpenEvent.dbiOpen, OpenEvent.txnCommit] ∧
    o.createStatus = 0 ∧ o.setMapsizeStatus = 0 ∧ o.envOpenStatus = 0 ∧
    o.txnBeginStatus = 0 ∧ o.dbiOpenStatus = 0 ∧ o.commitStatus = 0 ∧
    env.env = o.envHandle ∧ env.dbi = o.dbiHandle := by
  cases env
  unfold Environment.openEnv at h ⊢
  split_ifs at h ⊢
  all_goals simp_all

/-- Witness for C8: an all-success oracle on a NUL-free path. -/
theorem c8_open_effect_order_witness :
    (Environment.openEnv ⟨0, 0, 0, 0, 0, 0, 7, 3⟩ [104] 0 16777216 438).1 =
      [OpenEvent.envCreate, OpenEvent.envSetMapsize 16777216,
        OpenEvent.envOpen [104] 0 438, OpenEvent.txnBegin MDB_RDONLY,
        OpenEvent.dbiOpen, OpenEvent.txnCommit] ∧
    (OpenOracle.mk 0 0 0 0 0 0 7 3).createStatus = 0 ∧
    (OpenOracle.mk 0 0 0 0 0 0 7 3).setMapsizeStatus = 0 ∧
    (OpenOracle.mk 0 0 0 0 0 0 7 3).envOpenStatus = 0 ∧
    (OpenOracle.mk 0 0 0 0 0 0 7 3).txnBeginStatus = 0 ∧
    (OpenOracle.mk 0 0 0 0 0 0 7 3).dbiOpenStatus = 0 ∧
    (OpenOracle.mk 0 0 0 0 0 0 7 3).commitStatus = 0 ∧
    (Environment.mk 7 3).env = 7 ∧ (Environment.mk 7 3).dbi = 3 :=
  c8_open_effect_order ⟨0, 0, 0, 0, 0, 0, 7, 3⟩ [104] 0 16777216 438 ⟨7, 3⟩
    (by decide)

/-- C9: an `Error` is determined by its stored status code alone (it holds
no message), and its formatted form is exactly the engine's canonical
string for that code, obtained by applying the status-to-string facility at
format time — so formatting is a deterministic function of the code. -/
theorem c9_error_code_only_lazy_format (strerror : Status → String)
    (e₁ e₂ : Error) :
    (e₁.code = e₂.code → e₁ = e₂) ∧
    Error.fmtDebug strerror e₁ = strerror e₁.code ∧
    (e₁.code = e₂.code →
      Error.fmtDebug strerror e₁ = Error.fmtDebug strerror e₂) := by
  refine ⟨fun h => ?_, rfl, fun h => ?_⟩
  · cases e₁; cases e₂; simp_all
  · simp [Error.fmtDebug, h]

/-- Witness for C9 at a concrete resolver and code. -/
theorem c9_error_code_only_lazy_format_witness :
    Error.mk (-30798) = Error.mk (-30798) ∧
    Error.fmtDebug (fun c => toString c) ⟨-30798⟩ = toString (-30798 : Int) :=
  ⟨(c9_error_code_only_lazy_format (fun c => toString c) ⟨-30798⟩ ⟨-30798⟩).1 rfl,
   (c9_error_code_only_lazy_format (fun c => toString c) ⟨-30798⟩ ⟨-30798⟩).2.1⟩

/-- C10: `get` is a pure read: it leaves the transaction state — the table
view and the completion flag — unchanged, and a repeated `get` of the same
key returns the same result. -/
theorem c10_get_pure_read (st : TxnState) (k : List Nat) :
    (Transaction.getS st k).1 = st ∧
    (Transaction.getS st k).1.db = st.db ∧
    (Transaction.getS st k).1.is_discarded = st.is_discarded ∧
    (Transaction.getS (Transaction.getS st k).1 k).2 =
      (Transaction.getS st k).2 :=
  ⟨rfl, rfl, rfl, rfl⟩

end LiteMDB
